import Mathlib

/-!
Shallow embedding of the result-normalization and storage logic of the
supa-crawl repository (files `src/crawlers/async_crawler.py`,
`src/storage/supabase_handler.py` and `src/models/schemas.py`),
together with theorems settling the specification claims about it.

Python strings are modelled as Lean `String`, Python dynamic (JSON-shaped)
values as the inductive `PyVal`, Python `dict` as an association list with
unique keys, and exceptions as `Except` values that the embedded
`try/except` blocks discharge explicitly.
-/

/-- A Python/JSON value as it flows through the crawler pipeline:
the possible shapes of `json.loads` output and of the values stored in
result dictionaries. -/
inductive PyVal where
  | str (s : String)
  | num (n : Int)
  | bool (b : Bool)
  | none
  | list (xs : List PyVal)
  | dict (kvs : List (String × PyVal))

/-- Python truthiness (`if x:`) for the embedded values: `None`, `False`,
`0`, `""`, `[]` and `{}` are falsy, everything else truthy. -/
def pyTruthy : PyVal → Bool
  | .str s => !(s == "")
  | .num n => !(n == 0)
  | .bool b => b
  | .none => false
  | .list xs => !xs.isEmpty
  | .dict kvs => !kvs.isEmpty

/-- Python `d.get(k, default)` on a dict modelled as an association list
(keys unique, first match returned). -/
def pyGetD (kvs : List (String × PyVal)) (k : String) (dflt : PyVal) : PyVal :=
  match kvs.find? (fun kv => kv.1 == k) with
  | some kv => kv.2
  | Option.none => dflt

/-- The apostrophe character used by Python `repr` for strings. -/
def quoteChar : Char := Char.ofNat 39

/-- Python `repr` of a value, as used for elements rendered inside
container literals by `str`. -/
def pyReprOf : PyVal → String
  | .str s => String.singleton quoteChar ++ s ++ String.singleton quoteChar
  | .num n => toString n
  | .bool b => if b then "True" else "False"
  | .none => "None"
  | .list xs =>
      "[" ++ String.intercalate ", " (xs.attach.map (fun x => pyReprOf x.1)) ++ "]"
  | .dict kvs =>
      "\x7b" ++
        String.intercalate ", "
          (kvs.attach.map (fun kv =>
            String.singleton quoteChar ++ kv.1.1 ++ String.singleton quoteChar ++
              ": " ++ pyReprOf kv.1.2)) ++ "\x7d"
decreasing_by
  · have h := List.sizeOf_lt_of_mem x.2
    simp only [PyVal.list.sizeOf_spec]
    omega
  · obtain ⟨⟨k, v⟩, hkv⟩ := kv
    have h := List.sizeOf_lt_of_mem hkv
    simp only [Prod.mk.sizeOf_spec, PyVal.dict.sizeOf_spec] at *
    omega

/-- Python `str()` of a value as interpolated by an f-string: a string is
rendered without quotes, containers use `repr` of their elements. -/
def pyStrOf : PyVal → String
  | .str s => s
  | v => pyReprOf v

/-! ## `supabase_handler.py`: `_extract_first_paragraph`

The markdown-to-first-paragraph helper works character by character, so it
is embedded over `List Char` with a `String` wrapper at the boundary. -/

/-- The ASCII whitespace characters removed by Python `str.strip()`. -/
def isPySpace (c : Char) : Bool :=
  c == ' ' || c == '\t' || c == '\n' || c == '\r' ||
    c == Char.ofNat 11 || c == Char.ofNat 12

/-- Python `s.strip()`: drop leading and trailing whitespace. -/
def pyStripL (s : List Char) : List Char :=
  ((s.dropWhile isPySpace).reverse.dropWhile isPySpace).reverse

/-- Python `s.split("\n\n")`: greedy left-to-right split on non-overlapping
occurrences of two consecutive newlines (`markdown_content.split('\n\n')`). -/
def splitParas : List Char → List (List Char)
  | [] => [[]]
  | '\n' :: '\n' :: rest => [] :: splitParas rest
  | c :: rest =>
    match splitParas rest with
    | [] => [[c]]
    | p :: ps => (c :: p) :: ps

/-- The per-paragraph cleanup in `_extract_first_paragraph`:
`paragraph.strip().replace('\n', ' ')` followed by `.lstrip('#').strip()`. -/
def cleanPara (p : List Char) : List Char :=
  pyStripL
    (((pyStripL p).map (fun c => if c == '\n' then ' ' else c)).dropWhile
      (fun c => c == '#'))

/-- Python `s[:500] + "..." if len(s) > 500 else s`, the truncation applied
both to a substantial paragraph and to the whole-content fallback. -/
def pyTrunc (s : List Char) : List Char :=
  if s.length > 500 then s.take 500 ++ [Char.ofNat 46, Char.ofNat 46, Char.ofNat 46] else s

/-- The `for paragraph in paragraphs` loop of `_extract_first_paragraph`:
the cleaned form of the first paragraph whose cleaned text has more than 50
characters, if any. -/
def firstSubstantial : List (List Char) → Option (List Char)
  | [] => Option.none
  | p :: ps =>
    let clean := cleanPara p
    if clean.length > 50 then some clean else firstSubstantial ps

/-- `SupabaseHandler._extract_first_paragraph`: empty input yields `""`;
otherwise the first substantial paragraph (cleaned, truncated), or the
truncated whole content as fallback. -/
def _extract_first_paragraph (markdown_content : String) : String :=
  if markdown_content == "" then ""
  else
    match firstSubstantial (splitParas markdown_content.data) with
    | some clean => String.mk (pyTrunc clean)
    | Option.none => String.mk (pyTrunc markdown_content.data)

/-! ## `async_crawler.py`: the result loop of `crawl_with_llm_analysis`

One crawl outcome as delivered by the external crawling library: `success`
and `error_message` for the fetch, `extracted_content` the raw string the
LLM extraction produced (`None` when no extraction ran). -/

structure LLMCrawlResult where
  url : String
  success : Bool
  extracted_content : Option String
  markdown : String
  status_code : Int
  error_message : String

/-- Python truthiness of `result.extracted_content` (`None` and `""` falsy). -/
def ecTruthy : Option String → Bool
  | some s => !(s == "")
  | Option.none => false

/-- One entry of the `analyzed_results` list built by
`crawl_with_llm_analysis`: `analysis` is the parsed JSON on success and
`None` when `json.loads` raised `JSONDecodeError` (the fallback branch).
The wall-clock `crawl_time` field is omitted: nothing downstream reads it. -/
structure AnalyzedResult where
  url : String
  raw_markdown : String
  analysis : Option PyVal
  status_code : Int

/-- The predicate selecting the results that `crawl_with_llm_analysis`
keeps: `if result.success and result.extracted_content:`. -/
def llmKept (r : LLMCrawlResult) : Bool :=
  r.success && ecTruthy r.extracted_content

/-- The `for result in results` loop of `crawl_with_llm_analysis`
(lines 194-220), parametrized by the behavior of `json.loads`
(`parse s = none` models a raised `json.JSONDecodeError`, which the
`except` branch turns into a fallback entry with `analysis = None`).
Results that fail the `success and extracted_content` test are only
logged and contribute no entry. -/
def processLLMResults (parse : String → Option PyVal) :
    List LLMCrawlResult → List AnalyzedResult
  | [] => []
  | r :: rs =>
    let rest := processLLMResults parse rs
    match r.extracted_content with
    | some ec =>
      if r.success && !(ec == "") then
        match parse ec with
        | some data =>
            { url := r.url, raw_markdown := r.markdown, analysis := some data,
              status_code := r.status_code } :: rest
        | Option.none =>
            { url := r.url, raw_markdown := r.markdown, analysis := Option.none,
              status_code := r.status_code } :: rest
      else rest
    | Option.none => rest

/-! ## `async_crawler.py`: the storage loop of `crawl_and_store_in_supabase` -/

/-- The arguments of one `store_page_summary` call issued by the storage
loop of `crawl_and_store_in_supabase`. `title` and `summary` keep the
dynamic type they have in the Python code (`analysis.get` may return any
JSON value). -/
structure StoreCall where
  url : String
  title : PyVal
  summary : PyVal
  raw_markdown : String

/-- The body of the `for result in results` loop of
`crawl_and_store_in_supabase` (lines 324-366), as the list of
`store_page_summary` calls it issues for one result: none when the URL is
falsy or there is no truthy analysis, otherwise exactly one call. A list
analysis contributes only its element `analysis_list[0]`; a non-dict
analysis value yields the placeholder strings
`'No title extracted'` / `'No summary extracted'`, as does a dict missing
the `title` or `summary` key. -/
def storeCallsForResult (r : AnalyzedResult) : List StoreCall :=
  if r.url == "" then []
  else
    match r.analysis with
    | Option.none => []
    | some analysis_list =>
      if pyTruthy analysis_list then
        let analysis : PyVal :=
          match analysis_list with
          | .list (x :: _) => x
          | a => a
        let title : PyVal :=
          match analysis with
          | .dict d => pyGetD d "title" (.str "No title extracted")
          | _ => .str "No title extracted"
        let summary : PyVal :=
          match analysis with
          | .dict d => pyGetD d "summary" (.str "No summary extracted")
          | _ => .str "No summary extracted"
        [{ url := r.url, title := title, summary := summary,
           raw_markdown := r.raw_markdown }]
      else []

/-- All `store_page_summary` calls issued by the storage loop of
`crawl_and_store_in_supabase` over a batch of analyzed results. -/
def crawlAndStoreCalls (results : List AnalyzedResult) : List StoreCall :=
  (results.map storeCallsForResult).flatten

/-! ## `schemas.py` and the storage loop of `crawl_and_store_prediction_markets` -/

/-- The pydantic model `PredictionMarketBet` of `models/schemas.py`: four
required string fields plus five optional fields defaulting to `None`.
(`probability_percentage` is a `float` field in the source; it is never
populated by any code path in the repository, so no floating-point
behavior is observable and an integer carrier suffices.) -/
structure PredictionMarketBet where
  website_name : String
  bet_title : String
  odds : String
  summary : String
  market_category : Option String := Option.none
  betting_options : Option String := Option.none
  probability_percentage : Option Int := Option.none
  volume_info : Option String := Option.none
  closing_date : Option String := Option.none

/-- The Python exceptions that arise in the storage loops. -/
inductive PyErr where
  | attributeError
  | validationError

/-- Lines 405-415: `markets_to_store` derived from the raw LLM output —
all elements of a truthy list, a single dict wrapped into a list,
and nothing for any other value (including falsy ones). -/
def marketsToStore : Option PyVal → List PyVal
  | some v =>
    if pyTruthy v then
      match v with
      | .list ms => ms
      | .dict kvs => [.dict kvs]
      | _ => []
    else []
  | Option.none => []

/-- The four values picked from a candidate mapping by `clean_data`
(lines 421-426). -/
structure CleanData where
  website_name : PyVal
  bet_title : PyVal
  odds : PyVal
  summary : PyVal

/-- Lines 421-426: building `clean_data` from `market_data` via
`market_data.get(field, '')`. Calling `.get` on a non-dict value raises
`AttributeError` (caught by the surrounding `except`). -/
def cleanMarketData : PyVal → Except PyErr CleanData
  | .dict d =>
      .ok { website_name := pyGetD d "website_name" (.str ""),
            bet_title := pyGetD d "bet_title" (.str ""),
            odds := pyGetD d "odds" (.str ""),
            summary := pyGetD d "summary" (.str "") }
  | _ => .error .attributeError

/-- Pydantic validation of a value against a required `str` field: only an
actual string is accepted (pydantic v2 does not coerce numbers, booleans,
`None` or containers to `str`). -/
def asRequiredStr : PyVal → Except PyErr String
  | .str s => .ok s
  | _ => .error .validationError

/-- Line 428: `PredictionMarketBet(**clean_data)` — validate the four
picked values; the five optional fields keep their `None` defaults. -/
def validateBet (c : CleanData) : Except PyErr PredictionMarketBet := do
  let w ← asRequiredStr c.website_name
  let b ← asRequiredStr c.bet_title
  let o ← asRequiredStr c.odds
  let s ← asRequiredStr c.summary
  pure { website_name := w, bet_title := b, odds := o, summary := s }

/-- Lines 421-428 composed: from one candidate `market_data` value to a
validated `PredictionMarketBet` or the exception raised on the way. -/
def validateMarket (market_data : PyVal) : Except PyErr PredictionMarketBet := do
  let c ← cleanMarketData market_data
  validateBet c

/-- Line 431: `self.storage_handler.store_prediction_market_data(...)`.
The `SupabaseHandler` class of `supabase_handler.py` defines no method of
this name (its methods are `store_crawl_results`, `store_page_summary`,
`check_connection` and `_extract_first_paragraph`), so the attribute
lookup raises `AttributeError` unconditionally. -/
def store_prediction_market_data (source_url : String)
    (prediction_data : PredictionMarketBet) : Except PyErr Bool :=
  .error .attributeError

/-- The body of the inner `try` (lines 419-434) for one market: clean,
validate, store; `true` iff a truthy store response incremented
`stored_count`. -/
def storeOneMarketE (url : String) (market_data : PyVal) : Except PyErr Bool := do
  let bet ← validateMarket market_data
  store_prediction_market_data url bet

/-- One market's contribution to `stored_count`: the inner
`except Exception` (lines 442-444) catches every exception and the loop
moves on, so a failed market contributes `false`. -/
def storeOneMarket (url : String) (market_data : PyVal) : Bool :=
  match storeOneMarketE url market_data with
  | .ok response => response
  | .error _ => false

/-- One analyzed result of `crawl_prediction_markets_with_llm` as consumed
by the storage loop (same shape as `AnalyzedResult`; the parsed LLM output
sits in `prediction_data`). -/
structure PMResult where
  url : String
  raw_markdown : String
  prediction_data : Option PyVal
  status_code : Int

/-- Lines 391-450, one result: number of increments of `stored_count`
contributed by this result. A falsy URL is skipped; otherwise each
element of `markets_to_store` is attempted independently. -/
def storedForResult (r : PMResult) : Nat :=
  if r.url == "" then 0
  else ((marketsToStore r.prediction_data).map (storeOneMarket r.url)).countP id

/-- The final `stored_count` of `crawl_and_store_prediction_markets` over
a batch of results. -/
def storedCountList (results : List PMResult) : Nat :=
  (results.map storedForResult).sum

/-- `crawl_and_store_prediction_markets` after the crawl phase
(lines 376-453): `False` when the handler is unavailable or the crawl
produced no results, otherwise `stored_count > 0`. -/
def crawl_and_store_prediction_markets (available : Bool)
    (results : List PMResult) : Bool :=
  if !available then false
  else
    match results with
    | [] => false
    | _ => decide (storedCountList results > 0)

/-! ## `supabase_handler.py`: `store_page_summary` and `store_crawl_results` -/

/-- One row of the `Testing` table as written by `store_page_summary`:
the upsert payload `{url, title, summary}` plus the optional `content`
column. -/
structure PageRow where
  url : String
  title : PyVal
  summary : PyVal
  content : Option String

/-- The upsert payload built by `store_page_summary` (lines 160-169):
`content` is the first paragraph of `raw_markdown` when that argument is
truthy (its Python default is `None`). -/
def pageRowOf (url : String) (title summary : PyVal)
    (raw_markdown : Option String) : PageRow :=
  { url := url, title := title, summary := summary,
    content :=
      match raw_markdown with
      | some md => if md == "" then Option.none else some (_extract_first_paragraph md)
      | Option.none => Option.none }

/-- Modelled from the spec: the storage collaborator's
upsert-by-natural-key operation (`self.client.table("Testing").upsert`),
which the spec requires to replace any existing row with the same natural
key (the URL) rather than add a duplicate. The Supabase client itself is
an external collaborator not present in the repository. -/
def upsertByUrl (table : List PageRow) (row : PageRow) : List PageRow :=
  if table.any (fun r => r.url == row.url) then
    table.map (fun r => if r.url == row.url then row else r)
  else table ++ [row]

/-- `SupabaseHandler.store_page_summary` (lines 138-184) acting on the
table state: build the payload and upsert it. -/
def store_page_summary (table : List PageRow) (url : String)
    (title summary : PyVal) (raw_markdown : Option String) : List PageRow :=
  upsertByUrl table (pageRowOf url title summary raw_markdown)

/-- One row of the `Testing` table as written by `store_crawl_results`
(`data = {url, content}`). -/
structure TestingRow where
  url : String
  content : String

/-- A plain SQL insert: appends a fresh row (the table's generated `id`
primary key makes every insert a new row). -/
def insertRow (table : List TestingRow) (row : TestingRow) : List TestingRow :=
  table ++ [row]

/-- One item passed to `store_crawl_results`. -/
structure CrawlStoreInput where
  url : String
  raw_markdown : String
  analysis : Option PyVal

/-- Lines 113-120: the `TITLE: ...\nSUMMARY: ...\n\n` header prepended to
the stored content when the item carries a truthy analysis. -/
def analysisHeaderOf (analysis : PyVal) : String :=
  let title : PyVal :=
    match analysis with
    | .dict d => pyGetD d "title" (.str "No title")
    | _ => .str "No title"
  let summary : PyVal :=
    match analysis with
    | .dict d => pyGetD d "summary" (.str "No summary")
    | _ => .str "No summary"
  "TITLE: " ++ pyStrOf title ++ "\nSUMMARY: " ++ pyStrOf summary ++ "\n\n"

/-- Lines 94-120: the row `store_crawl_results` builds for one item, or
nothing when `url` or `raw_markdown` is falsy (the `continue` branch). -/
def crawlRowOf (r : CrawlStoreInput) : Option TestingRow :=
  if r.url == "" || r.raw_markdown == "" then Option.none
  else
    let first_paragraph := _extract_first_paragraph r.raw_markdown
    let content :=
      match r.analysis with
      | some a =>
        if pyTruthy a then analysisHeaderOf a ++ first_paragraph else first_paragraph
      | Option.none => first_paragraph
    some { url := r.url, content := content }

/-- `SupabaseHandler.store_crawl_results` (lines 76-136) acting on the
table state: each item's row is inserted (plain `insert`, lines 122-124)
and counted; skipped items contribute nothing. -/
def store_crawl_results (table : List TestingRow)
    (results : List CrawlStoreInput) : List TestingRow × Nat :=
  results.foldl
    (fun acc r =>
      match crawlRowOf r with
      | some row => (insertRow acc.1 row, acc.2 + 1)
      | Option.none => acc)
    (table, 0)


/-! ## Helper lemmas -/

/-- Removing an element the predicate rejects from the middle of a list
does not change `find?`. -/
theorem find?_skip_middle {α : Type} (p : α → Bool) (x : α) (h : p x = false) :
    ∀ l1 l2 : List α, (l1 ++ x :: l2).find? p = (l1 ++ l2).find? p := by
  intro l1 l2
  induction l1 with
  | nil => simp [List.find?, h]
  | cons a l ih =>
    simp only [List.cons_append, List.find?]
    cases p a <;> simp [ih]

/-- `storeOneMarket` never succeeds: the final store call raises
`AttributeError` (missing method), and every earlier failure is an
exception as well. -/
theorem storeOneMarket_eq_false (url : String) (m : PyVal) :
    storeOneMarket url m = false := by
  unfold storeOneMarket storeOneMarketE store_prediction_market_data
  cases h : validateMarket m <;> rfl

/-! ## Claim theorems -/

/-- C3 counterexample: a fetch outcome with `ok=false` carrying the error
string `"timeout after 30s"` and even a parseable payload yields an empty
output list — zero rejections, not the single rejection with that exact
reason that the claim requires. -/
theorem c3_counterexample :
    processLLMResults (fun _ => some (.dict [("title", PyVal.str "T")]))
      [{ url := "https://x.com", success := false,
         extracted_content := some "\x7b\"title\": \"T\"\x7d", markdown := "m",
         status_code := 500, error_message := "timeout after 30s" }] = [] := rfl

/-- C3 amended: a fetch outcome with `ok=false` is dropped entirely by
`crawl_with_llm_analysis`, contributing no entry to the output regardless
of its payload (its error is only printed), and no parsing is attempted on
it: the output equals the output for the remaining outcomes alone. -/
theorem c3_failed_outcome_dropped
    (parse : String → Option PyVal) (r : LLMCrawlResult)
    (rs : List LLMCrawlResult) (h : r.success = false) :
    processLLMResults parse (r :: rs) = processLLMResults parse rs := by
  cases hec : r.extracted_content with
  | none => simp only [processLLMResults, hec]
  | some ec => simp only [processLLMResults, hec, h]; simp

/-- C3 witness: the amended theorem applied to one concrete failed
outcome. -/
theorem c3_witness :
    processLLMResults (fun _ => Option.none)
      [{ url := "https://w.example", success := false,
         extracted_content := some "x", markdown := "", status_code := 0,
         error_message := "connection refused" }] =
      processLLMResults (fun _ => Option.none) [] :=
  c3_failed_outcome_dropped (fun _ => Option.none) _ [] rfl

/-- C6 counterexample: a successful outcome whose payload is a sequence of
two mappings yields, in `crawl_and_store_in_supabase`, a single store call
built from the first element only — the second element contributes no
accept or reject outcome, so one element stands in for the whole
sequence. -/
theorem c6_counterexample :
    storeCallsForResult
      { url := "https://l.example", raw_markdown := "m",
        analysis := some (.list
          [.dict [("title", PyVal.str "first"), ("summary", PyVal.str "s1")],
           .dict [("title", PyVal.str "second"), ("summary", PyVal.str "s2")]]),
        status_code := 200 } =
      [{ url := "https://l.example", title := PyVal.str "first",
         summary := PyVal.str "s1", raw_markdown := "m" }] := rfl

/-- C6 amended: in `crawl_and_store_prediction_markets` every element of a
list payload is an independent candidate (`markets_to_store` keeps all of
them in order), but in `crawl_and_store_in_supabase` only
`analysis_list[0]` is used: the store calls for a list payload coincide
with those for the singleton holding just its first element. -/
theorem c6_list_candidates :
    (∀ (m : PyVal) (ms : List PyVal),
        marketsToStore (some (.list (m :: ms))) = m :: ms) ∧
    (∀ (url md : String) (sc : Int) (x : PyVal) (xs : List PyVal),
        storeCallsForResult
            { url := url, raw_markdown := md,
              analysis := some (.list (x :: xs)), status_code := sc } =
          storeCallsForResult
            { url := url, raw_markdown := md,
              analysis := some (.list [x]), status_code := sc }) :=
  ⟨fun _ _ => rfl, fun _ _ _ _ _ => rfl⟩

/-- C7 counterexample: a whitespace-only value for the required
`website_name` field is accepted verbatim by the candidate validation of
`crawl_and_store_prediction_markets` — no trimming happens and the
candidate is not rejected, contrary to the claim. -/
theorem c7_counterexample :
    validateMarket (.dict
      [("website_name", PyVal.str "   "),
       ("bet_title", PyVal.str "Will X happen"),
       ("odds", PyVal.str "62%"),
       ("summary", PyVal.str "S")]) =
      .ok { website_name := "   ", bet_title := "Will X happen",
            odds := "62%", summary := "S" } := rfl

/-- C7 amended: candidate validation performs no whitespace trimming at
all: every string field value is passed through verbatim (so a
whitespace-only value for a required field is accepted unchanged rather
than rejected). -/
theorem c7_no_trimming (w b o s : String) :
    validateMarket (.dict
      [("website_name", PyVal.str w), ("bet_title", PyVal.str b),
       ("odds", PyVal.str o), ("summary", PyVal.str s)]) =
      .ok { website_name := w, bet_title := b, odds := o, summary := s } := rfl

/-- C1 counterexample: a candidate mapping missing the required `title`
field is not rejected by `crawl_and_store_in_supabase`: it issues a store
call in which the placeholder string `'No title extracted'` is substituted
for the missing field — the record is accepted partially filled, and no
rejection naming `title` exists anywhere. -/
theorem c1_counterexample :
    storeCallsForResult
      { url := "https://e.example", raw_markdown := "md",
        analysis := some (.dict [("summary", PyVal.str "Missing title")]),
        status_code := 200 } =
      [{ url := "https://e.example", title := PyVal.str "No title extracted",
         summary := PyVal.str "Missing title", raw_markdown := "md" }] := rfl

/-- C1 amended: a candidate missing a required field is never rejected;
instead a placeholder is substituted and the record accepted.
`crawl_and_store_in_supabase` stores `'No title extracted'` for any truthy
dict analysis lacking a `title` key, and the candidate cleaning of
`crawl_and_store_prediction_markets` substitutes the empty string for a
missing `website_name`. -/
theorem c1_placeholder_substitution :
    (∀ (url md : String) (sc : Int) (d : List (String × PyVal)),
        ¬url = "" →
        d.find? (fun kv => kv.1 == "title") = Option.none →
        ¬d = [] →
        storeCallsForResult
            { url := url, raw_markdown := md, analysis := some (.dict d),
              status_code := sc } =
          [{ url := url, title := PyVal.str "No title extracted",
             summary := pyGetD d "summary" (.str "No summary extracted"),
             raw_markdown := md }]) ∧
    (∀ d : List (String × PyVal),
        d.find? (fun kv => kv.1 == "website_name") = Option.none →
        (cleanMarketData (.dict d)).map CleanData.website_name =
          .ok (PyVal.str "")) := by
  constructor
  · intro url md sc d hurl htitle hd
    have h1 : (url == "") = false := beq_eq_false_iff_ne.mpr hurl
    have h2 : d.isEmpty = false := by
      cases d with
      | nil => exact absurd rfl hd
      | cons a l => rfl
    simp [storeCallsForResult, h1, pyTruthy, h2, pyGetD, htitle]
  · intro d hw
    simp [cleanMarketData, pyGetD, hw, Except.map]

/-- C1 witness: the amended theorem applied to a concrete candidate with a
missing `title` and a concrete candidate with a missing `website_name`. -/
theorem c1_witness :
    storeCallsForResult
        { url := "https://w.example", raw_markdown := "",
          analysis := some (.dict [("summary", PyVal.str "s")]),
          status_code := 0 } =
      [{ url := "https://w.example", title := PyVal.str "No title extracted",
         summary := pyGetD [("summary", PyVal.str "s")] "summary"
           (.str "No summary extracted"),
         raw_markdown := "" }] ∧
    (cleanMarketData (.dict [("odds", PyVal.str "o")])).map
        CleanData.website_name = .ok (PyVal.str "") :=
  ⟨c1_placeholder_substitution.1 "https://w.example" "" 0 _ (by decide) rfl
      (List.cons_ne_nil _ _),
    c1_placeholder_substitution.2 _ rfl⟩

/-- C2 counterexample: one successful outcome whose payload parses to a
list of two mappings plus one failed outcome produce, per the claim,
2 + 1 = 3 accept/reject outcomes; the code emits a single output entry in
total (the parsed list stays one entry and the failure is dropped), so no
partition of the output into accepted and rejected can sum to 3. -/
theorem c2_counterexample :
    (processLLMResults
      (fun s =>
        if s == "L" then
          some (.list [.dict [("title", PyVal.str "a")],
                       .dict [("title", PyVal.str "b")]])
        else Option.none)
      [{ url := "https://a.example", success := true,
         extracted_content := some "L", markdown := "m", status_code := 200,
         error_message := "" },
       { url := "https://b.example", success := false,
         extracted_content := Option.none, markdown := "", status_code := 0,
         error_message := "timeout" }]).length = 1 := rfl

/-- C2 amended: `crawl_with_llm_analysis` emits exactly one output entry
per outcome with `ok=true` and non-empty `extracted_content` (whether or
not its JSON parses) and nothing for any other outcome, so the output
length equals the count of such outcomes; an N-element list payload is
split into N independent candidates only later, in
`crawl_and_store_prediction_markets`. -/
theorem c2_output_count :
    (∀ (parse : String → Option PyVal) (rs : List LLMCrawlResult),
        (processLLMResults parse rs).length = rs.countP llmKept) ∧
    (∀ (m : PyVal) (ms : List PyVal),
        (marketsToStore (some (.list (m :: ms)))).length = ms.length + 1) := by
  constructor
  · intro parse rs
    induction rs with
    | nil => rfl
    | cons r rs ih =>
      cases hec : r.extracted_content with
      | none =>
        simp [processLLMResults, hec, List.countP_cons, llmKept, ecTruthy, ih]
      | some ec =>
        by_cases hs : (r.success && !(ec == "")) = true
        · cases hp : parse ec <;>
            simp [processLLMResults, hec, hp, hs, List.countP_cons, llmKept,
              ecTruthy, ih]
        · simp [processLLMResults, hec, hs, List.countP_cons, llmKept,
            ecTruthy, ih]
  · intro m ms
    rfl

/-- C4 counterexample: a candidate with a type-incompatible required field
(`website_name` is a number) does raise a validation error, but the whole
observable output of `crawl_and_store_prediction_markets` is the boolean
built from `stored_count` — the failure is caught and only printed, so it
surfaces in no rejected list, contrary to the claim. -/
theorem c4_counterexample :
    validateMarket (.dict
      [("website_name", PyVal.num 7), ("bet_title", PyVal.str "B"),
       ("odds", PyVal.str "O"), ("summary", PyVal.str "S")]) =
        .error .validationError ∧
    crawl_and_store_prediction_markets true
      [{ url := "https://pm.example", raw_markdown := "m",
         prediction_data := some (.dict
           [("website_name", PyVal.num 7), ("bet_title", PyVal.str "B"),
            ("odds", PyVal.str "O"), ("summary", PyVal.str "S")]),
         status_code := 200 }] = false := ⟨rfl, rfl⟩

/-- C4 amended: malformed input never aborts a batch — every per-item and
per-market exception is caught, so processing is per-item independent:
both result loops distribute over list concatenation. However, malformed
items do not surface in any rejected list: fetch failures are dropped,
JSON parse failures become entries with `analysis = None`, and market
validation failures leave only the unchanged `stored_count`. -/
theorem c4_per_item_isolation :
    (∀ (parse : String → Option PyVal) (xs ys : List LLMCrawlResult),
        processLLMResults parse (xs ++ ys) =
          processLLMResults parse xs ++ processLLMResults parse ys) ∧
    (∀ xs ys : List PMResult,
        storedCountList (xs ++ ys) = storedCountList xs + storedCountList ys) := by
  constructor
  · intro parse xs ys
    induction xs with
    | nil => rfl
    | cons r rs ih =>
      cases hec : r.extracted_content with
      | none => simp [processLLMResults, hec, ih]
      | some ec =>
        by_cases hs : (r.success && !(ec == "")) = true
        · cases hp : parse ec <;> simp [processLLMResults, hec, hp, hs, ih]
        · simp [processLLMResults, hec, hs, ih]
  · intro xs ys
    simp [storedCountList]

/-- C8 confirmed: a payload field whose name is not one of the four schema
fields never influences candidate validation — the candidate cleaning of
`crawl_and_store_prediction_markets` reads only the schema keys, so adding
an unknown field anywhere in the mapping leaves the validation result
(and hence the accepted record, which by construction carries only the
schema fields) unchanged, and can neither cause a rejection nor appear in
the record. -/
theorem c8_unknown_fields_dropped
    (d1 d2 : List (String × PyVal)) (k : String) (v : PyVal)
    (h : ¬k ∈ (["website_name", "bet_title", "odds", "summary"] : List String)) :
    validateMarket (.dict (d1 ++ (k, v) :: d2)) =
      validateMarket (.dict (d1 ++ d2)) := by
  simp only [List.mem_cons, List.not_mem_nil, or_false, not_or] at h
  obtain ⟨h1, h2, h3, h4⟩ := h
  simp only [validateMarket, cleanMarketData, pyGetD]
  rw [find?_skip_middle (fun kv => kv.1 == "website_name")
      ((k, v) : String × PyVal) (beq_eq_false_iff_ne.mpr h1) d1 d2,
    find?_skip_middle (fun kv => kv.1 == "bet_title")
      ((k, v) : String × PyVal) (beq_eq_false_iff_ne.mpr h2) d1 d2,
    find?_skip_middle (fun kv => kv.1 == "odds")
      ((k, v) : String × PyVal) (beq_eq_false_iff_ne.mpr h3) d1 d2,
    find?_skip_middle (fun kv => kv.1 == "summary")
      ((k, v) : String × PyVal) (beq_eq_false_iff_ne.mpr h4) d1 d2]

/-- C8 witness: the theorem applied to a concrete mapping with the unknown
field `extra_field` inserted between the schema fields. -/
theorem c8_witness :
    validateMarket (.dict ([("website_name", PyVal.str "Polymarket")] ++
        ("extra_field", PyVal.num 7) ::
          [("bet_title", PyVal.str "B"), ("odds", PyVal.str "O"),
           ("summary", PyVal.str "S")])) =
      validateMarket (.dict ([("website_name", PyVal.str "Polymarket")] ++
        [("bet_title", PyVal.str "B"), ("odds", PyVal.str "O"),
         ("summary", PyVal.str "S")])) :=
  c8_unknown_fields_dropped _ _ _ _ (by decide)

/-- C9 confirmed: for every batch of analyzed results (hence for every list
of input URLs), `crawl_and_store_prediction_markets` stores zero markets
and returns `False`: the missing `store_prediction_market_data` method
makes every per-market attempt raise `AttributeError`, which the
per-market handler catches, so `stored_count` stays `0` and
`stored_count > 0` is `False` (as are the early-return branches). -/
theorem c9_never_stores :
    ∀ results : List PMResult,
      storedCountList results = 0 ∧
      ∀ available : Bool,
        crawl_and_store_prediction_markets available results = false := by
  have hone : ∀ r : PMResult, storedForResult r = 0 := by
    intro r
    unfold storedForResult
    by_cases hu : (r.url == "") = true
    · simp [hu]
    · simp only [hu, Bool.false_eq_true, if_false]
      apply List.countP_eq_zero.mpr
      intro b hb
      obtain ⟨m, _, hbm⟩ := List.mem_map.mp hb
      rw [← hbm, storeOneMarket_eq_false]
      simp
  intro results
  have hcount : storedCountList results = 0 := by
    apply List.sum_eq_zero
    intro x hx
    obtain ⟨r, _, hxr⟩ := List.mem_map.mp hx
    rw [← hxr, hone]
  refine ⟨hcount, ?_⟩
  intro available
  unfold crawl_and_store_prediction_markets
  cases available with
  | false => rfl
  | true =>
    cases results with
    | nil => rfl
    | cons r rs => simp [hcount]

/-- Upserting into a table with no row for the new row's key appends it. -/
theorem upsertByUrl_of_absent (table : List PageRow) (row : PageRow)
    (h : ∀ r ∈ table, (r.url == row.url) = false) :
    upsertByUrl table row = table ++ [row] := by
  unfold upsertByUrl
  rw [if_neg]
  intro hc
  obtain ⟨r, hr, hrr⟩ := List.any_eq_true.mp hc
  rw [h r hr] at hrr
  exact Bool.false_ne_true hrr

/-- Upserting over a table whose only row for the key is the last one
replaces that row in place. -/
theorem upsertByUrl_replaces (table : List PageRow) (row1 row2 : PageRow)
    (hurl : row1.url = row2.url)
    (h : ∀ r ∈ table, (r.url == row2.url) = false) :
    upsertByUrl (table ++ [row1]) row2 = table ++ [row2] := by
  unfold upsertByUrl
  rw [if_pos]
  · rw [List.map_append]
    congr 1
    · conv_rhs => rw [← List.map_id table]
      apply List.map_congr_left
      intro r hr
      simp [h r hr]
    · simp [hurl]
  · exact List.any_eq_true.mpr ⟨row1, by simp, by simp [hurl]⟩

/-- C5 counterexample: `store_crawl_results` writes with a plain insert,
not a keyed upsert: storing the same record twice leaves two identical
rows for the natural key `https://e.example` instead of one. -/
theorem c5_counterexample :
    store_crawl_results []
      [{ url := "https://e.example", raw_markdown := "A short page.",
         analysis := Option.none },
       { url := "https://e.example", raw_markdown := "A short page.",
         analysis := Option.none }] =
      ([{ url := "https://e.example", content := "A short page." },
        { url := "https://e.example", content := "A short page." }], 2) := rfl

/-- C5 amended: key derivation is idempotent — every store call issued for
a result carries the result's URL as its natural key, so reconciling the
same payload twice yields the same key — and `store_page_summary` does
perform a keyed upsert (writing twice to a key absent from the table
leaves exactly one row, holding the latest values); `store_crawl_results`,
however, performs plain inserts and duplicates rows. -/
theorem c5_upsert_idempotent_key :
    (∀ (r : AnalyzedResult) (c : StoreCall),
        c ∈ storeCallsForResult r → c.url = r.url) ∧
    (∀ (table : List PageRow) (u : String) (t1 s1 t2 s2 : PyVal)
        (m1 m2 : Option String),
        table.countP (fun row => row.url == u) = 0 →
        (store_page_summary (store_page_summary table u t1 s1 m1) u t2 s2
              m2).countP (fun row => row.url == u) = 1 ∧
        (store_page_summary (store_page_summary table u t1 s1 m1) u t2 s2
              m2).find? (fun row => row.url == u) =
          some (pageRowOf u t2 s2 m2)) := by
  constructor
  · intro r c hc
    unfold storeCallsForResult at hc
    split at hc
    · simp at hc
    · split at hc
      · simp at hc
      · split at hc
        · simp at hc
          rw [hc]
        · simp at hc
  · intro table u t1 s1 t2 s2 m1 m2 h0
    have hall : ∀ r ∈ table, (r.url == u) = false := by
      intro r hr
      have hne := List.countP_eq_zero.mp h0 r hr
      cases hb : r.url == u with
      | false => rfl
      | true => exact absurd hb hne
    have e2 : upsertByUrl (table ++ [pageRowOf u t1 s1 m1])
        (pageRowOf u t2 s2 m2) = table ++ [pageRowOf u t2 s2 m2] :=
      upsertByUrl_replaces table _ _ rfl hall
    unfold store_page_summary
    rw [upsertByUrl_of_absent table (pageRowOf u t1 s1 m1) hall, e2]
    constructor
    · rw [List.countP_append, h0]
      simp [List.countP_cons, pageRowOf]
    · have hnone : table.find? (fun row => row.url == u) = Option.none :=
        List.find?_eq_none.mpr (fun x hx => by rw [hall x hx]; simp)
      rw [List.find?_append, hnone]
      simp [pageRowOf]

/-- C5 witness: the amended theorem applied to a concrete result (whose
single store call carries the result's URL) and to a concrete double
store into an empty table. -/
theorem c5_witness :
    (({ url := "https://w.example", title := PyVal.str "T",
        summary := PyVal.str "S", raw_markdown := "m" } : StoreCall).url =
      ("https://w.example" : String)) ∧
    ((store_page_summary
        (store_page_summary [] "https://w.example" (PyVal.str "a")
          (PyVal.str "b") Option.none)
        "https://w.example" (PyVal.str "c") (PyVal.str "d")
        Option.none).countP
      (fun row => row.url == "https://w.example") = 1 ∧
    (store_page_summary
        (store_page_summary [] "https://w.example" (PyVal.str "a")
          (PyVal.str "b") Option.none)
        "https://w.example" (PyVal.str "c") (PyVal.str "d")
        Option.none).find?
      (fun row => row.url == "https://w.example") =
        some (pageRowOf "https://w.example" (PyVal.str "c") (PyVal.str "d")
          Option.none)) :=
  ⟨c5_upsert_idempotent_key.1
      { url := "https://w.example", raw_markdown := "m",
        analysis := some (.dict [("title", PyVal.str "T"),
          ("summary", PyVal.str "S")]),
        status_code := 200 }
      _ (List.Mem.head _),
    c5_upsert_idempotent_key.2 [] "https://w.example" _ _ _ _ _ _ rfl⟩

/-- The truncation step never yields more than 503 characters: either the
value kept is at most 500 characters, or it is cut to 500 plus the
three-character ellipsis. -/
theorem pyTrunc_length_le (s : List Char) : (pyTrunc s).length ≤ 503 := by
  by_cases h : s.length > 500
  · simp only [pyTrunc, h, if_pos, List.length_append, List.length_take,
      List.length_cons, List.length_nil]
    omega
  · simp only [pyTrunc, h, if_neg, if_false]
    omega

/-- The paragraph loop returns the cleanup of the first paragraph whose
cleanup has more than 50 characters. -/
theorem firstSubstantial_eq (ps : List (List Char)) :
    firstSubstantial ps =
      (ps.find? (fun p => decide (50 < (cleanPara p).length))).map cleanPara := by
  induction ps with
  | nil => rfl
  | cons p ps ih =>
    simp only [firstSubstantial, List.find?]
    by_cases h : 50 < (cleanPara p).length
    · simp [h]
    · simp [h, ih]

/-- C10 confirmed: `_extract_first_paragraph` returns `""` on empty input
and otherwise at most 503 characters: the first paragraph whose cleaned
text exceeds 50 characters — truncated to 500 characters plus `"..."`
when longer than 500 — or, when no paragraph qualifies, the whole content
under the same truncation rule. -/
theorem c10_extract_first_paragraph (md : String) :
    (md = "" → _extract_first_paragraph md = "") ∧
    (_extract_first_paragraph md).length ≤ 503 ∧
    (¬md = "" →
      _extract_first_paragraph md =
        match (splitParas md.data).find?
            (fun p => decide (50 < (cleanPara p).length)) with
        | some p => String.mk (pyTrunc (cleanPara p))
        | Option.none => String.mk (pyTrunc md.data)) := by
  refine ⟨?_, ?_, ?_⟩
  · intro h
    subst h
    rfl
  · unfold _extract_first_paragraph
    by_cases h : (md == "") = true
    · simp [h]
    · rw [if_neg (by simp [h])]
      rw [firstSubstantial_eq]
      cases hf : (splitParas md.data).find?
          (fun p => decide (50 < (cleanPara p).length)) with
      | none => exact pyTrunc_length_le _
      | some p => exact pyTrunc_length_le _
  · intro h
    have hb : (md == "") = false := beq_eq_false_iff_ne.mpr h
    unfold _extract_first_paragraph
    rw [if_neg (by simp [hb])]
    rw [firstSubstantial_eq]
    cases hf : (splitParas md.data).find?
        (fun p => decide (50 < (cleanPara p).length)) with
    | none => rfl
    | some p => rfl

/-- C10 witness: the theorem applied to the empty string and to a concrete
non-empty markdown string. -/
theorem c10_witness :
    _extract_first_paragraph "" = "" ∧
    (_extract_first_paragraph "hello").length ≤ 503 ∧
    _extract_first_paragraph "hello" =
      (match (splitParas "hello".data).find?
          (fun p => decide (50 < (cleanPara p).length)) with
       | some p => String.mk (pyTrunc (cleanPara p))
       | Option.none => String.mk (pyTrunc "hello".data)) :=
  ⟨(c10_extract_first_paragraph "").1 rfl,
    (c10_extract_first_paragraph "hello").2.1,
    (c10_extract_first_paragraph "hello").2.2 (by decide)⟩
